import Mathlib

/-!
Verification development for the opencode-session-backup plugin
(single source file `src/index.ts`).

The embedding below transcribes the scheduler, the sync/restore tool
bodies, the exit-code handlers of the mirror subprocess, and the
statistics collector.  Times are modelled as naturals (milliseconds of
`Date.now()`); the initial value of the global `lastSyncTime` is 0 as in
the source (line 44).  A run that starts at a wall-clock instant far
after the epoch has its first gate check `now - 0 >= 30000` pass, which
is how the source realises the `lastSyncTimestamp = never` state of the
design; theorems about the `never` state therefore place the first
trigger at an instant `>= 30000`.

JavaScript size formatting divides a float by 1024; division of a
nonnegative integer below 2^53 by powers of 1024 is exact in binary
floating point (it only shifts the exponent), so the formatting loop is
embedded over the rationals, which is bit-exact for every realistic
byte total.
-/

/-- Constant `SYNC_DEBOUNCE_MS` (line 47). -/
def SYNC_DEBOUNCE_MS : Nat := 30000

/-- Constant `SYNC_DELAY_MS` (line 48). -/
def SYNC_DELAY_MS : Nat := 5000

/-- The `SyncResult` record (lines 50-55).  `duration` in ms; absent
optional fields are `none`. -/
structure SyncResult where
  success : Bool
  duration : Nat
  filesChanged : Option Nat
  error : Option String
deriving DecidableEq

/-- Boolean test that the list `needle` is an initial segment of `hay`. -/
def startsWithChars : List Char → List Char → Bool
  | [], _ => true
  | _ :: _, [] => false
  | a :: as, b :: bs => a == b && startsWithChars as bs

/-- Boolean test that `needle` occurs contiguously somewhere in `hay`. -/
def mentionsChars (needle : List Char) : List Char → Bool
  | [] => startsWithChars needle []
  | b :: bs => startsWithChars needle (b :: bs) || mentionsChars needle bs

/-- String `hay` mentions `needle`: `needle` is a contiguous substring. -/
def mentions (hay needle : String) : Bool :=
  mentionsChars needle.data hay.data

/-- Environment a `runSync` call observes before any subprocess is
spawned: the module globals `destination` and `source` (lines 41-42) and
the relevant filesystem facts.  `mkdirOk` tells whether
`mkdirSync(destination)` would succeed, `mkdirErr` is the exception text
it would raise otherwise. -/
structure MirrorEnv where
  destination : String
  source : String
  destExists : Bool
  mkdirOk : Bool
  mkdirErr : String
  sourceExists : Bool
deriving DecidableEq

/-- The early-return prefix of `runSync` (lines 57-78): the checks that
run before the subprocess is spawned.  `some r` means `runSync` returns
`r` without spawning; `none` means control reaches the `spawn` call
(line 80 onward). -/
def runSyncPre (e : MirrorEnv) : Option SyncResult :=
  if e.destination = "" then
    some { success := false, duration := 0, filesChanged := none,
           error := some "No backup path configured" }
  else if !e.destExists && !e.mkdirOk then
    some { success := false, duration := 0, filesChanged := none,
           error := some ("Failed to create destination: " ++ e.mkdirErr) }
  else if !e.sourceExists then
    some { success := false, duration := 0, filesChanged := none,
           error := some ("Source not found: " ++ e.source) }
  else
    none

/-- Whether `runSync` reaches the `spawn` call in environment `e`. -/
def runSyncSpawns (e : MirrorEnv) : Bool :=
  (runSyncPre e).isNone

/-- Text JavaScript produces for an exit code that may be `null`. -/
def codeStr : Option Nat → String
  | some c => toString c
  | none => "null"

/-- The rsync `close` handler of `runSync` (lines 93-101).  `code` is the
subprocess exit code (`none` models a `null` code), `elapsed` the
measured duration, `files` the count parsed from the output. -/
def rsyncClose (code : Option Nat) (elapsed : Nat) (files : Option Nat) : SyncResult :=
  { success := code == some 0
    duration := elapsed
    filesChanged := files
    error := if code == some 0 then none
             else some ("rsync exited with code " ++ codeStr code) }

/-- The robocopy `close` handler of `runSync` (lines 127-136): exit
codes 0-7 are success, 8 and above are failure (source comment,
line 128); a `null` code gives `success = false` with no error text. -/
def robocopyClose (code : Option Nat) (elapsed : Nat) (copied : Option Nat) : SyncResult :=
  match code with
  | some c =>
    { success := decide (c < 8)
      duration := elapsed
      filesChanged := copied
      error := if 8 ≤ c then some ("robocopy exited with code " ++ toString c)
               else none }
  | none =>
    { success := false, duration := elapsed, filesChanged := copied, error := none }

/-- Scheduler bookkeeping globals (lines 43-46).  `syncTimeout` holds
the instant the armed timer is due to fire (the source stores a timer
handle armed for `SYNC_DELAY_MS` from now; the due instant is the
information the handle carries). -/
structure GlobalState where
  lastSyncTime : Nat
  lastSyncSuccess : Bool
  syncCount : Nat
  syncTimeout : Option Nat
deriving DecidableEq

/-- Initial values of the globals (lines 43-46). -/
def g0 : GlobalState :=
  { lastSyncTime := 0, lastSyncSuccess := true, syncCount := 0, syncTimeout := none }

/-- `Math.ceil (a / b)` for natural `a` and positive natural `b` (the
only shape the source uses, line 306). -/
def jsCeilDiv (a b : Nat) : Nat := (a + b - 1) / b

/-- What the `session_backup_sync` tool decides before any await: either
skip (with the two second counts interpolated into the message,
line 307) or proceed to invoke `runSync`. -/
inductive SyncDecision where
  | skipped (agoSecs waitSecs : Nat)
  | invoke
deriving DecidableEq

/-- The part of `session_backup_sync.execute` that runs before
`runSync` is awaited (lines 299-311): the force reset of the gate, the
debounce check, and the gate write `lastSyncTime = Date.now()` that
precedes the await.  Both `Date.now()` reads of the body (lines 304 and
310) happen in the same synchronous stretch and are modelled as the
single instant `now`.  An absent (undefined) `force` argument is falsy
in the source and is modelled as `false`. -/
def syncNowPre (force : Bool) (now : Nat) (g : GlobalState) : SyncDecision × GlobalState :=
  let gf := if force then { g with lastSyncTime := 0 } else g
  if now - gf.lastSyncTime < SYNC_DEBOUNCE_MS ∧ force = false then
    (SyncDecision.skipped ((now - gf.lastSyncTime) / 1000)
       (jsCeilDiv (SYNC_DEBOUNCE_MS - (now - gf.lastSyncTime)) 1000), gf)
  else
    (SyncDecision.invoke, { gf with lastSyncTime := now })

/-- The bookkeeping `session_backup_sync.execute` performs after the
awaited `runSync` resolves with success flag `ok` (lines 312-315); the
timer callback performs the same updates (lines 214-217). -/
def syncNowPost (ok : Bool) (g : GlobalState) : GlobalState :=
  { g with lastSyncSuccess := ok
           syncCount := if ok then g.syncCount + 1 else g.syncCount }

/-- Events of the explicit-sync interleaving model: a call of the sync
tool at some instant, or the resolution of an in-flight `runSync`
await. -/
inductive SyncEv where
  | callSync (force : Bool)
  | finishSync (ok : Bool)
deriving DecidableEq

/-- One event applied to the globals paired with the number of
backup-direction mirror operations currently in flight (a ghost
counter: a `callSync` that decides `invoke` starts one, a `finishSync`
ends one). -/
def flightStep (s : GlobalState × Nat) (ev : Nat × SyncEv) : GlobalState × Nat :=
  match ev.2 with
  | SyncEv.callSync force =>
    match syncNowPre force ev.1 s.1 with
    | (SyncDecision.invoke, g) => (g, s.2 + 1)
    | (SyncDecision.skipped _ _, g) => (g, s.2)
  | SyncEv.finishSync ok => (syncNowPost ok s.1, s.2 - 1)

/-- A time-stamped event sequence applied in order. -/
def runFlight (evs : List (Nat × SyncEv)) (s : GlobalState × Nat) : GlobalState × Nat :=
  evs.foldl flightStep s

/-- State of the trigger-path model: the two globals `scheduleSync`
reads and writes, plus a ghost log of the instants at which the timer
callback invoked the mirror executor.  The bookkeeping the callback
performs after its await (`lastSyncSuccess`, `syncCount`) never feeds
back into scheduling and is covered by `syncNowPost` above. -/
structure TraceState where
  lastSyncTime : Nat
  syncTimeout : Option Nat
  mirrors : List Nat
deriving DecidableEq

/-- Initial trigger-path state (lines 43-44). -/
def traceInit : TraceState :=
  { lastSyncTime := 0, syncTimeout := none, mirrors := [] }

/-- `scheduleSync` called at instant `now` (lines 197-207): inside the
debounce window nothing happens; otherwise any pending timer is
cancelled and a new one armed for `SYNC_DELAY_MS` from now (arming
overwrites the stored due instant, which is exactly
`clearTimeout` followed by `setTimeout`). -/
def scheduleSync (now : Nat) (s : TraceState) : TraceState :=
  if now - s.lastSyncTime < SYNC_DEBOUNCE_MS then s
  else { s with syncTimeout := some (now + SYNC_DELAY_MS) }

/-- The timer callback firing at its due instant `t` (lines 208-213):
clear the handle, set `lastSyncTime = Date.now()`, invoke the mirror
executor (recorded in the ghost log).  The await and the bookkeeping
after it follow and do not touch scheduling state. -/
def fireTimer (t : Nat) (s : TraceState) : TraceState :=
  { lastSyncTime := t, syncTimeout := none, mirrors := s.mirrors ++ [t] }

/-- Fire the pending timer if it is due at or before instant `t`
(the event loop runs a due timer before delivering a later event). -/
def flushDue (t : Nat) (s : TraceState) : TraceState :=
  match s.syncTimeout with
  | some f => if f ≤ t then fireTimer f s else s
  | none => s

/-- Deliver one trigger at instant `t`: first run any timer already
due, then `scheduleSync`. -/
def runStep (t : Nat) (s : TraceState) : TraceState :=
  scheduleSync t (flushDue t s)

/-- Deliver a list of triggers in order. -/
def runTriggers : List Nat → TraceState → TraceState
  | [], s => s
  | t :: ts, s => runTriggers ts (runStep t s)

/-- After the last trigger, let a still-pending timer fire. -/
def finalFlush (s : TraceState) : TraceState :=
  match s.syncTimeout with
  | some f => fireTimer f s
  | none => s

/-- Ten triggers one second apart starting at `t0`, the scenario of the
debounce-suppression property (spec time unit = 1000 ms). -/
def tenTriggers (t0 : Nat) : List Nat :=
  [t0, t0 + 1000, t0 + 2000, t0 + 3000, t0 + 4000,
   t0 + 5000, t0 + 6000, t0 + 7000, t0 + 8000, t0 + 9000]

/-- Invariant of the trigger-path model: mirror invocations are spaced
at least a full window plus delay apart, `lastSyncTime` is the instant
of the last invocation (0 before the first), and a pending timer is due
a full window plus delay after the last invocation. -/
def TraceInv (s : TraceState) : Prop :=
  List.Chain' (fun a b => a + SYNC_DEBOUNCE_MS + SYNC_DELAY_MS ≤ b) s.mirrors ∧
  s.lastSyncTime = s.mirrors.getLast?.getD 0 ∧
  ∀ f, s.syncTimeout = some f → s.lastSyncTime + SYNC_DEBOUNCE_MS + SYNC_DELAY_MS ≤ f

/-- The size-formatting loop of `getBackupStats` (lines 254-260) over
exact rationals.  The loop guard `unitIndex < 3` bounds the iteration
count by 3, so a fuel of 4 makes the recursion total without changing
the semantics of the while loop. -/
def sizeLoopF : Nat → ℚ → Nat → ℚ × Nat
  | 0, s, ui => (s, ui)
  | fuel + 1, s, ui =>
    if 1024 ≤ s ∧ ui < 3 then sizeLoopF fuel (s / 1024) (ui + 1) else (s, ui)

/-- JavaScript `x.toFixed(1)` for nonnegative `x` (ECMA: the integer
`n` with `n / 10` closest to `x`, ties toward the larger `n`, printed
with one fractional digit). -/
def toFixed1 (x : ℚ) : String :=
  let n10 := (Rat.floor (10 * x + 1 / 2)).toNat
  toString (n10 / 10) ++ "." ++ toString (n10 % 10)

/-- The unit label `units[unitIndex]` for `units = [B, KB, MB, GB]`
(line 254); the loop guard keeps the index at most 3. -/
def unitName : Nat → String
  | 0 => "B"
  | 1 => "KB"
  | 2 => "MB"
  | _ => "GB"

/-- The size string `getBackupStats` builds (line 264). -/
def fmtSize (totalSize : Nat) : String :=
  let p := sizeLoopF 4 (totalSize : ℚ) 0
  toFixed1 p.1 ++ " " ++ unitName p.2

/-- A file-level stat of one child of a session directory: `statSync`
size and modification time (epoch ms). -/
structure FileStat where
  size : Nat
  mtime : Nat
deriving DecidableEq

/-- One immediate child of the `session` subdirectory: whether it is a
directory, and (when it is) the stats of its direct children. -/
structure FsEntry where
  isDir : Bool
  files : List FileStat
deriving DecidableEq

/-- What `getBackupStats` observes of the filesystem. -/
structure BackupFs where
  destinationEmpty : Bool
  destExists : Bool
  sessionDirExists : Bool
  sessionEntries : List FsEntry
deriving DecidableEq

/-- The record `getBackupStats` returns (line 225). -/
structure BackupStats where
  sessions : Nat
  size : String
  lastModified : Option Nat
deriving DecidableEq

/-- The update `if (!lastModified || fileStat.mtime > lastModified)`
(lines 246-248). -/
def updateLastModified (cur : Option Nat) (m : Nat) : Option Nat :=
  match cur with
  | none => some m
  | some l => if l < m then some m else some l

/-- The body of the outer `for` loop of `getBackupStats`
(lines 237-251) as a fold step over `(sessions, totalSize,
lastModified)`. -/
def walkSession (acc : Nat × Nat × Option Nat) (e : FsEntry) : Nat × Nat × Option Nat :=
  if e.isDir then
    (acc.1 + 1,
     e.files.foldl (fun st f => (st.1 + f.size, updateLastModified st.2 f.mtime))
       (acc.2.1, acc.2.2))
  else acc

/-- `getBackupStats` (lines 225-267). -/
def getBackupStats (fs : BackupFs) : BackupStats :=
  if fs.destinationEmpty || !fs.destExists then
    { sessions := 0, size := "0 B", lastModified := none }
  else
    let acc := if fs.sessionDirExists
               then fs.sessionEntries.foldl walkSession (0, 0, none)
               else ((0 : Nat), (0 : Nat), (none : Option Nat))
    { sessions := acc.1, size := fmtSize acc.2.1, lastModified := acc.2.2 }

/-- The message of the unconfirmed-restore branch (line 330). -/
def confirmWarning : String :=
  "Restore requires confirm=true. WARNING: This will overwrite all current sessions with backup data."

/-- JavaScript interpolation of a possibly-undefined string. -/
def optionStr : Option String → String
  | some s => s
  | none => "undefined"

/-- `session_backup_restore.execute` (lines 328-338).  `r` is the
result the awaited `runRestore` would produce; the boolean of the
returned pair records whether `runRestore` was invoked at all (it is
the only statement of the body that touches the filesystem: it may
create the source directory and spawns the mirror subprocess). -/
def restoreExecute (confirm : Bool) (r : SyncResult) : String × Bool :=
  if !confirm then
    (confirmWarning, false)
  else if r.success then
    ("Restore complete in " ++ toFixed1 ((r.duration : ℚ) / 1000) ++
       "s. Restart OpenCode to see restored sessions.", true)
  else
    ("Restore failed: " ++ optionStr r.error, true)

/-- The restore tool as a transformer of the scheduler globals: its
body (lines 328-338) and `runRestore` (lines 149-195) reference none of
`lastSyncTime`, `lastSyncSuccess`, `syncCount`, `syncTimeout`, so its
action on `GlobalState` is the identity. -/
def restoreExecuteS (confirm : Bool) (r : SyncResult) (g : GlobalState) :
    (String × Bool) × GlobalState :=
  (restoreExecute confirm r, g)

/-- Destination with a `session` subdirectory holding two session
directories whose files total 1024 and 2048 bytes. -/
def demoFs : BackupFs :=
  { destinationEmpty := false
    destExists := true
    sessionDirExists := true
    sessionEntries :=
      [{ isDir := true, files := [{ size := 1024, mtime := 5 }] },
       { isDir := true, files := [{ size := 2048, mtime := 7 }] }] }

/-- Environment where the source is missing but the destination is also
missing and cannot be created (for example a read-only parent). -/
def deadDestEnv : MirrorEnv :=
  { destination := "/backup"
    source := "/does/not/exist"
    destExists := false
    mkdirOk := false
    mkdirErr := "EACCES: permission denied"
    sourceExists := false }

/-- An initial segment test succeeds on any extension of the needle. -/
theorem startsWithChars_append (n rest : List Char) :
    startsWithChars n (n ++ rest) = true := by
  induction n with
  | nil => rfl
  | cons a as ih => simp [startsWithChars, ih]

/-- A list mentions any of its suffixes. -/
theorem mentionsChars_append (p n : List Char) : mentionsChars n (p ++ n) = true := by
  induction p with
  | nil =>
    cases n with
    | nil => rfl
    | cons b bs =>
      have h := startsWithChars_append (b :: bs) []
      rw [List.append_nil] at h
      simp [mentionsChars, h]
  | cons c cs ih =>
    simp [mentionsChars, ih]

/-- Characters of an appended string. -/
theorem data_append_eq (a b : String) : (a ++ b).data = a.data ++ b.data := by
  cases a
  cases b
  rfl

/-- A string mentions its own final segment. -/
theorem mentions_append_self (p s : String) : mentions (p ++ s) s = true := by
  unfold mentions
  rw [data_append_eq]
  exact mentionsChars_append p.data s.data

/-- Claim C3 (confirmed): the mirror executor normalizes both exit-code
conventions into one boolean.  Robocopy codes 0-7 give `success = true`;
codes 8 and above give `success = false` with an error string that
mentions the exit code.  Rsync code 0 gives `success = true` and every
nonzero code gives `success = false`. -/
theorem c3_exit_code_normalization (c elapsed : Nat) (copied files : Option Nat) :
    (c < 8 → (robocopyClose (some c) elapsed copied).success = true) ∧
    (8 ≤ c → (robocopyClose (some c) elapsed copied).success = false ∧
      ∃ msg, (robocopyClose (some c) elapsed copied).error = some msg ∧
        mentions msg (toString c) = true) ∧
    (rsyncClose (some 0) elapsed files).success = true ∧
    (c ≠ 0 → (rsyncClose (some c) elapsed files).success = false) := by
  refine ⟨?_, ?_, ?_, ?_⟩
  · intro h
    simp [robocopyClose, h]
  · intro h
    refine ⟨by simp [robocopyClose]; omega, ?_⟩
    refine ⟨"robocopy exited with code " ++ toString c, ?_, ?_⟩
    · simp [robocopyClose, h]
    · exact mentions_append_self _ _
  · simp [rsyncClose]
  · intro h
    simp [rsyncClose, h]

/-- Witness for C3 at the boundary codes 7, 8 and at rsync code 1. -/
theorem c3_witness :
    (robocopyClose (some 7) 0 none).success = true ∧
    (robocopyClose (some 8) 0 none).success = false ∧
    (rsyncClose (some 1) 0 none).success = false :=
  ⟨(c3_exit_code_normalization 7 0 none none).1 (by decide),
   ((c3_exit_code_normalization 8 0 none none).2.1 (by decide)).1,
   (c3_exit_code_normalization 1 0 none none).2.2.2 (by decide)⟩

/-- Claim C5 counterexample: a backup-direction call whose source is
missing while the destination is missing too and cannot be created
returns the destination error, which does not mention the missing
source path, so the claimed error text is wrong for this input (no
subprocess is spawned and `success = false` do hold). -/
theorem c5_counterexample :
    runSyncPre deadDestEnv
      = some { success := false, duration := 0, filesChanged := none,
               error := some "Failed to create destination: EACCES: permission denied" } ∧
    mentions "Failed to create destination: EACCES: permission denied" "/does/not/exist"
      = false ∧
    runSyncSpawns deadDestEnv = false := by decide

/-- Claim C5 (corrected): when the source path is missing, `runSync`
returns `success = false` and never reaches the `spawn` call; the error
mentions the missing source path provided the destination checks pass
first (destination configured, and existing or creatable). -/
theorem c5_missing_source (e : MirrorEnv) (hs : e.sourceExists = false) :
    (∃ r, runSyncPre e = some r ∧ r.success = false) ∧
    runSyncSpawns e = false ∧
    (e.destination ≠ "" → (e.destExists = true ∨ e.mkdirOk = true) →
      runSyncPre e
        = some { success := false, duration := 0, filesChanged := none,
                 error := some ("Source not found: " ++ e.source) } ∧
      mentions ("Source not found: " ++ e.source) e.source = true) := by
  have hs' : (!e.sourceExists) = true := by simp [hs]
  have hex : ∃ r, runSyncPre e = some r ∧ r.success = false := by
    unfold runSyncPre
    split_ifs with h1 h2
    · exact ⟨_, rfl, rfl⟩
    · exact ⟨_, rfl, rfl⟩
    · exact ⟨_, rfl, rfl⟩
  refine ⟨hex, ?_, ?_⟩
  · obtain ⟨r, hr, -⟩ := hex
    unfold runSyncSpawns
    rw [hr]
    rfl
  · intro hd hdm
    have hb : ¬ ((!e.destExists && !e.mkdirOk) = true) := by
      rcases hdm with h | h <;> simp [h]
    unfold runSyncPre
    rw [if_neg hd, if_neg hb, if_pos hs']
    exact ⟨rfl, mentions_append_self _ _⟩

/-- Witness for C5 at a missing source with a healthy destination. -/
theorem c5_witness :
    runSyncPre { destination := "/backup", source := "/src", destExists := true,
                 mkdirOk := true, mkdirErr := "", sourceExists := false }
      = some { success := false, duration := 0, filesChanged := none,
               error := some ("Source not found: " ++ "/src") } ∧
    mentions ("Source not found: " ++ "/src") "/src" = true :=
  (c5_missing_source _ rfl).2.2 (by decide) (Or.inl rfl)

/-- Claim C8 (confirmed): calling restore without confirmation returns
the warning that instructs re-invocation with `confirm=true`, and
`runRestore` (the only statement of the body that can touch the
filesystem) is not invoked. -/
theorem c8_restore_requires_confirm (r : SyncResult) :
    restoreExecute false r = (confirmWarning, false) ∧
    mentions confirmWarning "confirm=true" = true :=
  ⟨rfl, by decide⟩

/-- Claim C9 (confirmed): a forced sync resets the debounce gate, always
decides to invoke the executor (never the skipped outcome), and closes
the gate at the current instant, regardless of the previous state. -/
theorem c9_force_bypass (now : Nat) (g : GlobalState) :
    syncNowPre true now g = (SyncDecision.invoke, { g with lastSyncTime := now }) := by
  simp [syncNowPre]

/-- Claim C10 (confirmed): the restore tool leaves every piece of
scheduler bookkeeping untouched, for confirmed and unconfirmed calls
and for successful and failed restore results alike. -/
theorem c10_restore_frame (confirm : Bool) (r : SyncResult) (g : GlobalState) :
    (restoreExecuteS confirm r g).2.lastSyncTime = g.lastSyncTime ∧
    (restoreExecuteS confirm r g).2.lastSyncSuccess = g.lastSyncSuccess ∧
    (restoreExecuteS confirm r g).2.syncCount = g.syncCount ∧
    (restoreExecuteS confirm r g).2.syncTimeout = g.syncTimeout :=
  ⟨rfl, rfl, rfl, rfl⟩

/-- Claim C2 (confirmed): a non-forced sync call inside the debounce
window returns the skipped outcome, leaves the state unchanged (so the
executor is not invoked), and the carried wait is the remaining time
rounded up to whole seconds: it is the least second count covering the
remaining milliseconds. -/
theorem c2_skip (g : GlobalState) (now : Nat)
    (h : now - g.lastSyncTime < SYNC_DEBOUNCE_MS) :
    syncNowPre false now g
      = (SyncDecision.skipped ((now - g.lastSyncTime) / 1000)
          (jsCeilDiv (SYNC_DEBOUNCE_MS - (now - g.lastSyncTime)) 1000), g) ∧
    SYNC_DEBOUNCE_MS - (now - g.lastSyncTime)
      ≤ 1000 * jsCeilDiv (SYNC_DEBOUNCE_MS - (now - g.lastSyncTime)) 1000 ∧
    1000 * jsCeilDiv (SYNC_DEBOUNCE_MS - (now - g.lastSyncTime)) 1000
      < SYNC_DEBOUNCE_MS - (now - g.lastSyncTime) + 1000 := by
  refine ⟨by simp [syncNowPre, h], ?_, ?_⟩ <;>
    · unfold jsCeilDiv SYNC_DEBOUNCE_MS at *
      omega

/-- Witness for C2: at t = 10000 ms with the gate closed at 0, the call
is skipped with 10 seconds elapsed and 20 seconds left to wait. -/
theorem c2_witness :
    syncNowPre false 10000 g0 = (SyncDecision.skipped 10 20, g0) :=
  (c2_skip g0 10000 (by decide)).1

/-- On the invoke path, the state handed to the await has its gate set
to the current instant. -/
theorem syncNowPre_invoke_snd (force : Bool) (now : Nat) (g : GlobalState)
    (h : (syncNowPre force now g).1 = SyncDecision.invoke) :
    (syncNowPre force now g).2.lastSyncTime = now := by
  unfold syncNowPre at h ⊢
  cases force
  · simp only [Bool.false_eq_true, if_false] at h ⊢
    split at h
    · exact absurd h (by simp)
    · rename_i hc
      rw [if_neg hc]
  · simp

/-- Inside the debounce window a non-forced sync call is skipped and
the state is left untouched. -/
theorem syncNowPre_skip (g : GlobalState) (now : Nat)
    (h : now - g.lastSyncTime < SYNC_DEBOUNCE_MS) :
    syncNowPre false now g
      = (SyncDecision.skipped ((now - g.lastSyncTime) / 1000)
          (jsCeilDiv (SYNC_DEBOUNCE_MS - (now - g.lastSyncTime)) 1000), g) := by
  simp [syncNowPre, h]

/-- Claim C4 counterexample: the await of `runSync` has no timeout, so
a non-forced call CAN arrive during the await yet after the debounce
window has elapsed.  Trace: a non-forced call invokes the executor at
t = 30000; the operation is still in flight at t = 65000 (no finish
event has occurred) when a second non-forced call arrives; the gate
check finds 65000 - 30000 not below the window, so the second call also
decides `invoke` instead of the claimed skipped outcome, and two
backup-direction mirror operations are in flight at once. -/
theorem c4_counterexample :
    (runFlight [(30000, SyncEv.callSync false), (65000, SyncEv.callSync false)]
      (g0, 0)).2 = 2 ∧
    (syncNowPre false 65000 { g0 with lastSyncTime := 30000 }).1
      = SyncDecision.invoke := by decide

/-- Claim C4 (corrected): on every path of the sync tool that decides
to invoke the executor, the gate `lastSyncTime` is set to the current
instant in the state handed to the await; a second non-forced call
arriving during the await AND within `SYNC_DEBOUNCE_MS` of that instant
is skipped with the state unchanged, so it starts no second mirror
operation.  The timer callback likewise sets the gate to its firing
instant before its await, and `scheduleSync` is suppressed within the
window that follows. -/
theorem c4_gate_before_await (force : Bool) (now : Nat) (g gi : GlobalState)
    (h : syncNowPre force now g = (SyncDecision.invoke, gi)) :
    (gi.lastSyncTime = now ∧
      ∀ now2, now2 - now < SYNC_DEBOUNCE_MS →
        syncNowPre false now2 gi
          = (SyncDecision.skipped ((now2 - now) / 1000)
              (jsCeilDiv (SYNC_DEBOUNCE_MS - (now2 - now)) 1000), gi)) ∧
    (∀ (t t2 : Nat) (s : TraceState), (fireTimer t s).lastSyncTime = t ∧
      (t2 - t < SYNC_DEBOUNCE_MS → scheduleSync t2 (fireTimer t s) = fireTimer t s)) := by
  have h1 : (syncNowPre force now g).1 = SyncDecision.invoke := by rw [h]
  have h2 : (syncNowPre force now g).2 = gi := by rw [h]
  have hlast : gi.lastSyncTime = now := by
    rw [← h2]
    exact syncNowPre_invoke_snd force now g h1
  refine ⟨⟨hlast, ?_⟩, ?_⟩
  · intro now2 hw
    have hs := syncNowPre_skip gi now2 (by rw [hlast]; exact hw)
    rw [hlast] at hs
    exact hs
  · intro t t2 s
    refine ⟨rfl, fun ht => ?_⟩
    simp [scheduleSync, fireTimer, ht]

/-- Witness for C4: after a non-forced invoke at t = 30000 from the
initial state, a non-forced call at t = 31000 is skipped with the gate
state untouched. -/
theorem c4_witness :
    syncNowPre false 31000 { g0 with lastSyncTime := 30000 }
      = (SyncDecision.skipped 1 29, { g0 with lastSyncTime := 30000 }) :=
  ((c4_gate_before_await false 30000 g0 { g0 with lastSyncTime := 30000 }
      (by decide)).1.2) 31000 (by decide)

/-- The Batteries floor on rationals agrees with the floor of the
archimedean order structure. -/
theorem ratFloor_eq (q : ℚ) : Rat.floor q = ⌊q⌋ :=
  (Rat.floor_def' q).trans Rat.floor_def.symm

/-- Floor of a quotient of naturals, as integer division. -/
theorem ratFloor_natDiv (n d : ℕ) :
    Rat.floor ((n : ℚ) / (d : ℚ)) = (n : ℤ) / (d : ℤ) := by
  rw [ratFloor_eq]
  have h := Rat.floor_intCast_div_natCast (n : ℤ) d
  push_cast at h
  exact h

/-- Evaluation scheme for `toFixed1`: reduce the argument to a natural
fraction and its floor to a natural. -/
theorem toFixed1_eval (x : ℚ) (n d m : ℕ)
    (hx : 10 * x + 1 / 2 = (n : ℚ) / (d : ℚ)) (hm : (n : ℤ) / (d : ℤ) = (m : ℤ)) :
    toFixed1 x = toString (m / 10) ++ "." ++ toString (m % 10) := by
  unfold toFixed1
  rw [hx, ratFloor_natDiv, hm]
  simp

/-- One unfolding step of the formatting loop. -/
theorem sizeLoopF_succ (fuel : Nat) (s : ℚ) (ui : Nat) :
    sizeLoopF (fuel + 1) s ui
      = if 1024 ≤ s ∧ ui < 3 then sizeLoopF fuel (s / 1024) (ui + 1) else (s, ui) := rfl

/-- The loop on 3072 bytes stops at 3 KB. -/
theorem sizeLoopF_3072 : sizeLoopF 4 ((3072 : ℕ) : ℚ) 0 = (3, 1) := by
  rw [show ((3072 : ℕ) : ℚ) = 3072 by norm_num, sizeLoopF_succ,
      if_pos ⟨by norm_num, by norm_num⟩,
      show (3072 : ℚ) / 1024 = 3 by norm_num, sizeLoopF_succ,
      if_neg (by rintro ⟨hh, -⟩; norm_num at hh)]

/-- The loop on 500 bytes does not scale. -/
theorem sizeLoopF_500 : sizeLoopF 4 ((500 : ℕ) : ℚ) 0 = (500, 0) := by
  rw [show ((500 : ℕ) : ℚ) = 500 by norm_num, sizeLoopF_succ,
      if_neg (by rintro ⟨hh, -⟩; norm_num at hh)]

/-- The loop on a full terabyte is stopped by the unit-index guard at
magnitude 1024. -/
theorem sizeLoopF_2p40 : sizeLoopF 4 ((1024 ^ 4 : ℕ) : ℚ) 0 = (1024, 3) := by
  rw [show ((1024 ^ 4 : ℕ) : ℚ) = 1024 ^ 4 by push_cast; ring, sizeLoopF_succ,
      if_pos ⟨by norm_num, by norm_num⟩,
      show (1024 : ℚ) ^ 4 / 1024 = 1024 ^ 3 by norm_num [pow_succ],
      sizeLoopF_succ, if_pos ⟨by norm_num, by norm_num⟩,
      show (1024 : ℚ) ^ 3 / 1024 = 1024 ^ 2 by norm_num [pow_succ],
      sizeLoopF_succ, if_pos ⟨by norm_num, by norm_num⟩,
      show (1024 : ℚ) ^ 2 / 1024 = 1024 by norm_num [pow_succ],
      sizeLoopF_succ, if_neg (by rintro ⟨-, hh⟩; exact absurd hh (by norm_num))]

/-- 3072 bytes format as 3.0 KB. -/
theorem fmtSize_3072 : fmtSize 3072 = "3.0 KB" := by
  show toFixed1 (sizeLoopF 4 ((3072 : ℕ) : ℚ) 0).1 ++ " " ++
      unitName (sizeLoopF 4 ((3072 : ℕ) : ℚ) 0).2 = "3.0 KB"
  rw [sizeLoopF_3072, toFixed1_eval 3 61 2 30 (by norm_num) (by decide)]
  decide

/-- 500 bytes format as 500.0 B, with a decimal place. -/
theorem fmtSize_500 : fmtSize 500 = "500.0 B" := by
  show toFixed1 (sizeLoopF 4 ((500 : ℕ) : ℚ) 0).1 ++ " " ++
      unitName (sizeLoopF 4 ((500 : ℕ) : ℚ) 0).2 = "500.0 B"
  rw [sizeLoopF_500, toFixed1_eval 500 10001 2 5000 (by norm_num) (by decide)]
  decide

/-- A full terabyte formats as 1024.0 GB: the displayed magnitude
reaches 1024. -/
theorem fmtSize_2p40 : fmtSize (1024 ^ 4) = "1024.0 GB" := by
  show toFixed1 (sizeLoopF 4 ((1024 ^ 4 : ℕ) : ℚ) 0).1 ++ " " ++
      unitName (sizeLoopF 4 ((1024 ^ 4 : ℕ) : ℚ) 0).2 = "1024.0 GB"
  rw [sizeLoopF_2p40, toFixed1_eval 1024 20481 2 10240 (by norm_num) (by decide)]
  decide

/-- On a usable destination with an existing session directory, the
stats are the fold over the session entries. -/
theorem getBackupStats_pos (fs : BackupFs) (h1 : fs.destinationEmpty = false)
    (h2 : fs.destExists = true) (h3 : fs.sessionDirExists = true) :
    getBackupStats fs
      = { sessions := (fs.sessionEntries.foldl walkSession (0, 0, none)).1
          size := fmtSize (fs.sessionEntries.foldl walkSession (0, 0, none)).2.1
          lastModified := (fs.sessionEntries.foldl walkSession (0, 0, none)).2.2 } := by
  simp [getBackupStats, h1, h2, h3]

/-- Claim C6 (confirmed): stats on a non-existent destination are zero
sessions, the literal `0 B` size and no modification time, without
error; on a destination whose session subdirectory holds two session
directories with files totaling 1024 and 2048 bytes the collector
reports 2 sessions and 3072 total bytes displayed as `3.0 KB`. -/
theorem c6_stats :
    (∀ fs : BackupFs, fs.destExists = false →
      getBackupStats fs = { sessions := 0, size := "0 B", lastModified := none }) ∧
    getBackupStats demoFs
      = { sessions := 2, size := "3.0 KB", lastModified := some 7 } := by
  constructor
  · intro fs h
    simp [getBackupStats, h]
  · rw [getBackupStats_pos demoFs rfl rfl rfl,
        show List.foldl walkSession (0, 0, none) demoFs.sessionEntries
          = ((2 : ℕ), (3072 : ℕ), some (7 : ℕ)) from by decide]
    show BackupStats.mk 2 (fmtSize 3072) (some 7) = _
    rw [fmtSize_3072]

/-- Witness for C6 on a concrete missing destination. -/
theorem c6_witness :
    getBackupStats
      { destinationEmpty := false, destExists := false,
        sessionDirExists := false, sessionEntries := [] }
      = { sessions := 0, size := "0 B", lastModified := none } :=
  c6_stats.1 _ rfl

/-- Claim C7 counterexample: byte counts are NOT displayed without a
decimal place (500 bytes renders as 500.0 B, not 500 B), and a total of
1024^4 bytes renders as 1024.0 GB, a displayed magnitude that is not
below 1024 (the unit scaling stops at GB). -/
theorem c7_counterexample :
    fmtSize 500 = "500.0 B" ∧ fmtSize 500 ≠ "500 B" ∧
    fmtSize (1024 ^ 4) = "1024.0 GB" ∧
    (sizeLoopF 4 ((1024 ^ 4 : ℕ) : ℚ) 0).1 = 1024 := by
  refine ⟨fmtSize_500, ?_, fmtSize_2p40, ?_⟩
  · rw [fmtSize_500]
    decide
  · rw [sizeLoopF_2p40]

/-- Below a full terabyte the loop picks the largest unit whose
pre-rounding magnitude is below 1024, and the rendering carries one
decimal digit. -/
theorem sizeLoopF_below (n : ℕ) (hn : n < 1024 ^ 4) :
    (sizeLoopF 4 (n : ℚ) 0).1 < 1024 ∧
    (sizeLoopF 4 (n : ℚ) 0).2 ≤ 3 ∧
    (n : ℚ) = (sizeLoopF 4 (n : ℚ) 0).1 * 1024 ^ (sizeLoopF 4 (n : ℚ) 0).2 ∧
    (0 < (sizeLoopF 4 (n : ℚ) 0).2 → 1024 ^ (sizeLoopF 4 (n : ℚ) 0).2 ≤ n) ∧
    (∃ k d : ℕ, d < 10 ∧
      fmtSize n
        = toString k ++ "." ++ toString d ++ " " ++ unitName (sizeLoopF 4 (n : ℚ) 0).2) := by
  have hq : (0 : ℚ) < 1024 := by norm_num
  have hne : (1024 : ℚ) ≠ 0 := by norm_num
  have hshape : ∀ (s : ℚ) (ui : ℕ), sizeLoopF 4 (n : ℚ) 0 = (s, ui) →
      ∃ k d : ℕ, d < 10 ∧
        fmtSize n = toString k ++ "." ++ toString d ++ " " ++ unitName ui := by
    intro s ui hp
    refine ⟨(Rat.floor (10 * s + 1 / 2)).toNat / 10,
            (Rat.floor (10 * s + 1 / 2)).toNat % 10,
            Nat.mod_lt _ (by norm_num), ?_⟩
    show toFixed1 (sizeLoopF 4 (n : ℚ) 0).1 ++ " " ++
        unitName (sizeLoopF 4 (n : ℚ) 0).2 = _
    rw [hp]
    rfl
  norm_num at hn
  rcases Nat.lt_or_ge n 1024 with h1 | h1
  · have hp : sizeLoopF 4 (n : ℚ) 0 = ((n : ℚ), 0) := by
      rw [sizeLoopF_succ, if_neg]
      rintro ⟨hc, -⟩
      have : (1024 : ℕ) ≤ n := by exact_mod_cast hc
      omega
    rw [hp]
    refine ⟨?_, ?_, ?_, ?_, hshape _ _ hp⟩
    · show (n : ℚ) < 1024
      exact_mod_cast h1
    · show (0 : ℕ) ≤ 3
      norm_num
    · show (n : ℚ) = (n : ℚ) * 1024 ^ (0 : ℕ)
      rw [pow_zero, mul_one]
    · show 0 < (0 : ℕ) → 1024 ^ (0 : ℕ) ≤ n
      intro h
      exact absurd h (lt_irrefl 0)
  · rcases Nat.lt_or_ge n 1048576 with h2 | h2
    · have hb1 : (1024 : ℚ) ≤ (n : ℚ) := by exact_mod_cast h1
      have hp : sizeLoopF 4 (n : ℚ) 0 = ((n : ℚ) / 1024, 1) := by
        rw [sizeLoopF_succ, if_pos ⟨hb1, by norm_num⟩, sizeLoopF_succ, if_neg]
        rintro ⟨hc, -⟩
        rw [le_div_iff₀ hq] at hc
        have : (1024 * 1024 : ℕ) ≤ n := by exact_mod_cast hc
        omega
      rw [hp]
      refine ⟨?_, ?_, ?_, ?_, hshape _ _ hp⟩
      · show (n : ℚ) / 1024 < 1024
        rw [div_lt_iff₀ hq]
        have hc : (n : ℚ) < 1048576 := by exact_mod_cast h2
        nlinarith
      · show (1 : ℕ) ≤ 3
        norm_num
      · show (n : ℚ) = (n : ℚ) / 1024 * 1024 ^ (1 : ℕ)
        rw [pow_one]
        exact (div_mul_cancel₀ _ hne).symm
      · show 0 < (1 : ℕ) → 1024 ^ (1 : ℕ) ≤ n
        intro _
        rw [pow_one]
        exact h1
    · rcases Nat.lt_or_ge n 1073741824 with h3 | h3
      · have hb1 : (1024 : ℚ) ≤ (n : ℚ) := by
          have hx : (1024 : ℕ) ≤ n := by omega
          exact_mod_cast hx
        have hb2 : (1024 : ℚ) ≤ (n : ℚ) / 1024 := by
          rw [le_div_iff₀ hq]
          have hx : (1048576 : ℚ) ≤ (n : ℚ) := by exact_mod_cast h2
          nlinarith
        have hp : sizeLoopF 4 (n : ℚ) 0 = ((n : ℚ) / 1024 / 1024, 2) := by
          rw [sizeLoopF_succ, if_pos ⟨hb1, by norm_num⟩,
              sizeLoopF_succ, if_pos ⟨hb2, by norm_num⟩, sizeLoopF_succ, if_neg]
          rintro ⟨hc, -⟩
          rw [div_div, le_div_iff₀ (by norm_num : (0 : ℚ) < 1024 * 1024)] at hc
          have : (1024 * (1024 * 1024) : ℕ) ≤ n := by exact_mod_cast hc
          omega
        rw [hp]
        refine ⟨?_, ?_, ?_, ?_, hshape _ _ hp⟩
        · show (n : ℚ) / 1024 / 1024 < 1024
          rw [div_div, div_lt_iff₀ (by norm_num : (0 : ℚ) < 1024 * 1024)]
          have hc : (n : ℚ) < 1073741824 := by exact_mod_cast h3
          nlinarith
        · show (2 : ℕ) ≤ 3
          norm_num
        · show (n : ℚ) = (n : ℚ) / 1024 / 1024 * 1024 ^ (2 : ℕ)
          rw [div_div, show (1024 : ℚ) ^ 2 = 1024 * 1024 by norm_num]
          exact (div_mul_cancel₀ _ (by norm_num)).symm
        · show 0 < (2 : ℕ) → 1024 ^ (2 : ℕ) ≤ n
          intro _
          have hx : (1024 : ℕ) ^ 2 = 1048576 := by norm_num
          omega
      · have hb1 : (1024 : ℚ) ≤ (n : ℚ) := by
          have hx : (1024 : ℕ) ≤ n := by omega
          exact_mod_cast hx
        have hb2 : (1024 : ℚ) ≤ (n : ℚ) / 1024 := by
          rw [le_div_iff₀ hq]
          have hx : (1048576 : ℚ) ≤ (n : ℚ) := by
            have hy : (1048576 : ℕ) ≤ n := by omega
            exact_mod_cast hy
          nlinarith
        have hb3 : (1024 : ℚ) ≤ (n : ℚ) / 1024 / 1024 := by
          rw [div_div, le_div_iff₀ (by norm_num : (0 : ℚ) < 1024 * 1024)]
          have hx : (1073741824 : ℚ) ≤ (n : ℚ) := by exact_mod_cast h3
          nlinarith
        have hp : sizeLoopF 4 (n : ℚ) 0 = ((n : ℚ) / 1024 / 1024 / 1024, 3) := by
          rw [sizeLoopF_succ, if_pos ⟨hb1, by norm_num⟩,
              sizeLoopF_succ, if_pos ⟨hb2, by norm_num⟩,
              sizeLoopF_succ, if_pos ⟨hb3, by norm_num⟩, sizeLoopF_succ, if_neg]
          rintro ⟨-, hc⟩
          omega
        rw [hp]
        refine ⟨?_, ?_, ?_, ?_, hshape _ _ hp⟩
        · show (n : ℚ) / 1024 / 1024 / 1024 < 1024
          rw [div_div, div_div,
              div_lt_iff₀ (by norm_num : (0 : ℚ) < 1024 * (1024 * 1024))]
          have hc : (n : ℚ) < 1099511627776 := by exact_mod_cast hn
          nlinarith
        · show (3 : ℕ) ≤ 3
          norm_num
        · show (n : ℚ) = (n : ℚ) / 1024 / 1024 / 1024 * 1024 ^ (3 : ℕ)
          rw [div_div, div_div, show (1024 : ℚ) ^ 3 = 1024 * (1024 * 1024) by norm_num]
          exact (div_mul_cancel₀ _ (by norm_num)).symm
        · show 0 < (3 : ℕ) → 1024 ^ (3 : ℕ) ≤ n
          intro _
          have hx : (1024 : ℕ) ^ 3 = 1073741824 := by norm_num
          omega

/-- At and above a full terabyte the loop exhausts the unit list: the
unit index is capped at 3 (GB), the remaining magnitude is at least
1024, and the rendering still carries one decimal digit. -/
theorem sizeLoopF_above (n : ℕ) (hn : 1024 ^ 4 ≤ n) :
    (sizeLoopF 4 (n : ℚ) 0).2 = 3 ∧
    1024 ≤ (sizeLoopF 4 (n : ℚ) 0).1 ∧
    (∃ k d : ℕ, d < 10 ∧
      fmtSize n = toString k ++ "." ++ toString d ++ " " ++ unitName 3) := by
  have hq : (0 : ℚ) < 1024 := by norm_num
  norm_num at hn
  have hb1 : (1024 : ℚ) ≤ (n : ℚ) := by
    have hx : (1024 : ℕ) ≤ n := by omega
    exact_mod_cast hx
  have hb2 : (1024 : ℚ) ≤ (n : ℚ) / 1024 := by
    rw [le_div_iff₀ hq]
    have hx : (1048576 : ℚ) ≤ (n : ℚ) := by
      have hy : (1048576 : ℕ) ≤ n := by omega
      exact_mod_cast hy
    nlinarith
  have hb3 : (1024 : ℚ) ≤ (n : ℚ) / 1024 / 1024 := by
    rw [div_div, le_div_iff₀ (by norm_num : (0 : ℚ) < 1024 * 1024)]
    have hx : (1073741824 : ℚ) ≤ (n : ℚ) := by
      have hy : (1073741824 : ℕ) ≤ n := by omega
      exact_mod_cast hy
    nlinarith
  have hb4 : (1024 : ℚ) ≤ (n : ℚ) / 1024 / 1024 / 1024 := by
    rw [div_div, div_div,
        le_div_iff₀ (by norm_num : (0 : ℚ) < 1024 * (1024 * 1024))]
    have hx : (1099511627776 : ℚ) ≤ (n : ℚ) := by exact_mod_cast hn
    nlinarith
  have hp : sizeLoopF 4 (n : ℚ) 0 = ((n : ℚ) / 1024 / 1024 / 1024, 3) := by
    rw [sizeLoopF_succ, if_pos ⟨hb1, by norm_num⟩,
        sizeLoopF_succ, if_pos ⟨hb2, by norm_num⟩,
        sizeLoopF_succ, if_pos ⟨hb3, by norm_num⟩, sizeLoopF_succ, if_neg]
    rintro ⟨-, hc⟩
    omega
  refine ⟨?_, ?_, ?_⟩
  · rw [hp]
  · rw [hp]
    exact hb4
  · refine ⟨(Rat.floor (10 * ((n : ℚ) / 1024 / 1024 / 1024) + 1 / 2)).toNat / 10,
            (Rat.floor (10 * ((n : ℚ) / 1024 / 1024 / 1024) + 1 / 2)).toNat % 10,
            Nat.mod_lt _ (by norm_num), ?_⟩
    show toFixed1 (sizeLoopF 4 (n : ℚ) 0).1 ++ " " ++
        unitName (sizeLoopF 4 (n : ℚ) 0).2 = _
    rw [hp]
    rfl

/-- Claim C7 (corrected): for byte totals below 1024^4, the loop picks
the largest unit among B, KB, MB, GB (1024-based) whose pre-rounding
magnitude is below 1024 (the magnitude is exactly the total scaled by
the chosen power of 1024, and a nonzero unit index is only chosen when
the total reaches that power), and the rendered string always carries
exactly one decimal digit, for byte counts as well; totals of 1024^4
bytes and above are rendered in GB (unit index 3) with a magnitude of
1024 or more, still with one decimal digit. -/
theorem c7_size_formatting :
    (∀ n : ℕ, n < 1024 ^ 4 →
      (sizeLoopF 4 (n : ℚ) 0).1 < 1024 ∧
      (sizeLoopF 4 (n : ℚ) 0).2 ≤ 3 ∧
      (n : ℚ) = (sizeLoopF 4 (n : ℚ) 0).1 * 1024 ^ (sizeLoopF 4 (n : ℚ) 0).2 ∧
      (0 < (sizeLoopF 4 (n : ℚ) 0).2 → 1024 ^ (sizeLoopF 4 (n : ℚ) 0).2 ≤ n) ∧
      (∃ k d : ℕ, d < 10 ∧
        fmtSize n
          = toString k ++ "." ++ toString d ++ " " ++
              unitName (sizeLoopF 4 (n : ℚ) 0).2)) ∧
    (∀ n : ℕ, 1024 ^ 4 ≤ n →
      (sizeLoopF 4 (n : ℚ) 0).2 = 3 ∧
      1024 ≤ (sizeLoopF 4 (n : ℚ) 0).1 ∧
      (∃ k d : ℕ, d < 10 ∧
        fmtSize n = toString k ++ "." ++ toString d ++ " " ++ unitName 3)) :=
  ⟨sizeLoopF_below, sizeLoopF_above⟩

/-- Witness for C7: below the cap, at 3072 bytes, the magnitude stays
below 1024; at the cap 1024^4 the magnitude reaches 1024 in GB. -/
theorem c7_witness :
    (sizeLoopF 4 ((3072 : ℕ) : ℚ) 0).1 < 1024 ∧
    1024 ≤ (sizeLoopF 4 ((1024 ^ 4 : ℕ) : ℚ) 0).1 :=
  ⟨(c7_size_formatting.1 3072 (by decide)).1,
   (c7_size_formatting.2 (1024 ^ 4) (by decide)).2.1⟩

/-- The trigger-path invariant holds initially. -/
theorem traceInv_init : TraceInv traceInit := by
  refine ⟨List.chain'_nil, rfl, ?_⟩
  intro f hf
  simp [traceInit] at hf

/-- `scheduleSync` preserves the trigger-path invariant: the gate only
lets a timer be armed a full window after the last invocation, and the
timer is armed a further delay into the future. -/
theorem traceInv_scheduleSync (t : Nat) (s : TraceState) (h : TraceInv s) :
    TraceInv (scheduleSync t s) := by
  obtain ⟨hc, hl, hp⟩ := h
  unfold scheduleSync
  split
  · exact ⟨hc, hl, hp⟩
  · rename_i hgate
    refine ⟨hc, hl, ?_⟩
    intro f hf
    simp only [Option.some.injEq] at hf
    show s.lastSyncTime + SYNC_DEBOUNCE_MS + SYNC_DELAY_MS ≤ f
    unfold SYNC_DEBOUNCE_MS SYNC_DELAY_MS at *
    omega

/-- The timer callback preserves the invariant when it fires the
pending timer. -/
theorem traceInv_fire (f : Nat) (s : TraceState) (h : TraceInv s)
    (hp : s.syncTimeout = some f) : TraceInv (fireTimer f s) := by
  obtain ⟨hc, hl, hpend⟩ := h
  have hbound := hpend f hp
  refine ⟨?_, ?_, ?_⟩
  · show List.Chain' _ (s.mirrors ++ [f])
    rw [List.chain'_append]
    refine ⟨hc, List.chain'_singleton f, ?_⟩
    intro x hx y hy
    simp only [List.head?_cons, Option.mem_def, Option.some.injEq] at hy
    subst hy
    rw [Option.mem_def] at hx
    rw [hx] at hl
    simp only [Option.getD_some] at hl
    rw [← hl]
    exact hbound
  · show f = (s.mirrors ++ [f]).getLast?.getD 0
    rw [List.getLast?_concat s.mirrors]
    rfl
  · intro f' hf'
    simp [fireTimer] at hf'

/-- Running any timer that is already due preserves the invariant. -/
theorem traceInv_flush (t : Nat) (s : TraceState) (h : TraceInv s) :
    TraceInv (flushDue t s) := by
  unfold flushDue
  cases hp : s.syncTimeout with
  | none => exact h
  | some f =>
    dsimp only
    split
    · exact traceInv_fire f s h hp
    · exact h

/-- One trigger delivery preserves the invariant. -/
theorem traceInv_step (t : Nat) (s : TraceState) (h : TraceInv s) :
    TraceInv (runStep t s) :=
  traceInv_scheduleSync t _ (traceInv_flush t s h)

/-- Any trigger sequence preserves the invariant. -/
theorem traceInv_run (ts : List Nat) (s : TraceState) (h : TraceInv s) :
    TraceInv (runTriggers ts s) := by
  induction ts generalizing s with
  | nil => exact h
  | cons t ts ih => exact ih _ (traceInv_step t s h)

/-- The final flush preserves the invariant. -/
theorem traceInv_final (s : TraceState) (h : TraceInv s) : TraceInv (finalFlush s) := by
  unfold finalFlush
  cases hp : s.syncTimeout with
  | none => exact h
  | some f => exact traceInv_fire f s h hp

/-- Claim C1 counterexample: with the gate initially open (first
trigger at instant 30000, standing for the spec instant t = 0 in a
never-synced state), ten triggers fired 1000 ms apart produce exactly
one mirror invocation, but it fires at offset 14000 (5000 ms after the
LAST trigger), not at offset 5000 as claimed: until the timer first
fires, `lastSyncTime` is still its initial value, so every further
trigger passes the gate, cancels the pending timer and re-arms the
delay.  Moreover at offset 30000 (instant 60000), where the claim says
the gate reopens, `scheduleSync` is still suppressed. -/
theorem c1_counterexample :
    (finalFlush (runTriggers (tenTriggers 30000) traceInit)).mirrors = [44000] ∧
    (44000 : Nat) ≠ 30000 + 5000 ∧
    scheduleSync 60000 (finalFlush (runTriggers (tenTriggers 30000) traceInit))
      = finalFlush (runTriggers (tenTriggers 30000) traceInit) := by decide

/-- Claim C1 (corrected): for every trigger sequence, consecutive
mirror invocations of the trigger path are at least
`SYNC_DEBOUNCE_MS + SYNC_DELAY_MS` apart, so at most one mirror
invocation occurs per debounce window.  For the concrete burst of ten
triggers 1000 ms apart from a never-synced state (first trigger at
instant 30000), exactly one mirror invocation occurs, at offset 14000
(the delay restarts with each trigger until the timer first fires),
and the timestamp gate then suppresses all scheduling before offset
44000 (instant 74000). -/
theorem c1_debounce :
    (∀ ts : List Nat,
      List.Chain' (fun a b => a + SYNC_DEBOUNCE_MS + SYNC_DELAY_MS ≤ b)
        (finalFlush (runTriggers ts traceInit)).mirrors) ∧
    (finalFlush (runTriggers (tenTriggers 30000) traceInit)).mirrors = [44000] ∧
    (∀ t, t < 74000 →
      scheduleSync t (finalFlush (runTriggers (tenTriggers 30000) traceInit))
        = finalFlush (runTriggers (tenTriggers 30000) traceInit)) := by
  refine ⟨?_, by decide, ?_⟩
  · intro ts
    exact (traceInv_final _ (traceInv_run ts _ traceInv_init)).1
  · intro t ht
    have hF : finalFlush (runTriggers (tenTriggers 30000) traceInit)
        = { lastSyncTime := 44000, syncTimeout := none, mirrors := [44000] } := by decide
    rw [hF]
    unfold scheduleSync
    rw [if_pos]
    show t - 44000 < SYNC_DEBOUNCE_MS
    unfold SYNC_DEBOUNCE_MS
    omega

/-- Witness for C1: at instant 50000 (offset 20000, inside the
window), a fresh trigger leaves the state unchanged. -/
theorem c1_witness :
    scheduleSync 50000 (finalFlush (runTriggers (tenTriggers 30000) traceInit))
      = finalFlush (runTriggers (tenTriggers 30000) traceInit) :=
  c1_debounce.2.2 50000 (by decide)
